import Mathlib

/-!
Verification of the error-representation subsystem of the `pom`
parser-combinator library (`src/result.rs`).

The Rust code defines:
  * `ErrorMessage<'a>(Arc<dyn Fn() -> String + 'a>)` — a reference-counted
    zero-argument message producer;
  * `enum Error<'a>` with variants `Incomplete`, `Mismatch`, `Conversion`,
    `Expect`, `Custom`, carrying `ErrorMessage` payloads, positions and
    (for `Expect`/`Custom`) nested inner errors;
  * `ErrorMessage::evaluate` / `Error::evaluate` (the delayed → resolved
    conversion), a tag-only `PartialEq`, `Display`/`Debug` formatting and a
    minimal `std::error::Error` impl.

Shallow embedding conventions used below:
  * A closure value `Arc<dyn Fn() -> String>` is modelled as an inductive
    with two forms: `thunk n s` is a user-created producer (built by
    `ErrorMessage::new`) with identity `n` that returns the string `s` when
    invoked, and `const s` is the constant closure `move || s.clone()` that
    `ErrorMessage::evaluate` builds.  Producers in the Rust code are pure
    (the spec's stated invariant), so the returned string is a fixed datum.
  * Invoking a user-created producer is an observable event: the effectful
    operations return, next to their value, the trace (a `List Nat`) of the
    identities of the user producers invoked, in invocation order.  The
    constant closures made by `evaluate` contain no user code, so invoking
    them logs nothing.
  * `usize` positions become `Nat`; Rust `{}` formatting of `usize` is
    decimal, matching `toString : Nat → String`.
-/

namespace Pom

/-- Model of `ErrorMessage<'a>`: a shared handle to a zero-argument message
producer.  `thunk n s` is a producer closure with identity `n` returning `s`
when invoked; `const s` is the constant closure created by
`ErrorMessage::evaluate` (`move || s.clone()`). -/
inductive ErrorMessage where
  | thunk (n : Nat) (s : String)
  | const (s : String)
deriving DecidableEq, Repr

/-- Invoking the stored closure: `(self.0)()`.  Returns the produced string
and the trace of user-producer invocations this call performs. -/
def ErrorMessage.force : ErrorMessage → String × List Nat
  | .thunk n s => (s, [n])
  | .const s => (s, [])

/-- Model of `ErrorMessage::evaluate`: `let s = self.to_string();
ErrorMessage::new(move || s.clone())`.  `to_string` goes through `Display`,
which invokes the producer once; the result wraps the obtained string in a
constant closure. -/
def ErrorMessage.evaluate (m : ErrorMessage) : ErrorMessage × List Nat :=
  let r := m.force
  (.const r.1, r.2)

/-- Producer identities reachable from this message: `[n]` for a live
user-created producer, `[]` for a constant closure. -/
def ErrorMessage.ids : ErrorMessage → List Nat
  | .thunk n _ => [n]
  | .const _ => []

/-- Model of `enum Error<'a>` from `src/result.rs`: five variants; `Expect`
always carries an inner error, `Custom` an optional one. -/
inductive Error where
  | Incomplete
  | Mismatch (message : ErrorMessage) (position : Nat)
  | Conversion (message : ErrorMessage) (position : Nat)
  | Expect (message : ErrorMessage) (position : Nat) (inner : Error)
  | Custom (message : ErrorMessage) (position : Nat) (inner : Option Error)

/-- Model of `Error::evaluate`: rebuilds the tree, replacing every message
by its evaluated (constant) form.  Fields are evaluated in the textual order
of the Rust struct expressions: message first, then the inner error, so the
trace lists producer invocations in a pre-order walk. -/
def Error.evaluate : Error → Error × List Nat
  | .Incomplete => (.Incomplete, [])
  | .Mismatch message position =>
      let r := message.evaluate
      (.Mismatch r.1 position, r.2)
  | .Conversion message position =>
      let r := message.evaluate
      (.Conversion r.1 position, r.2)
  | .Expect message position inner =>
      let rm := message.evaluate
      let ri := inner.evaluate
      (.Expect rm.1 position ri.1, rm.2 ++ ri.2)
  | .Custom message position none =>
      let rm := message.evaluate
      (.Custom rm.1 position none, rm.2)
  | .Custom message position (some inner) =>
      let rm := message.evaluate
      let ri := inner.evaluate
      (.Custom rm.1 position (some ri.1), rm.2 ++ ri.2)

/-- Model of `impl PartialEq<Error> for Error`: tag-only comparison, every
payload ignored via `..` patterns, catch-all arm `false`. -/
def Error.eq : Error → Error → Bool
  | .Incomplete, .Incomplete => true
  | .Mismatch _ _, .Mismatch _ _ => true
  | .Conversion _ _, .Conversion _ _ => true
  | .Expect _ _ _, .Expect _ _ _ => true
  | .Custom _ _ _, .Custom _ _ _ => true
  | _, _ => false

/-- Model of `impl Display for Error` (`impl Debug for ErrorMessage` routes
through the same producer invocation).  Returns the formatted string and the
trace of producer invocations formatting performs; `write!` arguments are
formatted left to right, so the message is forced before the inner error is
formatted. -/
def Error.display : Error → String × List Nat
  | .Incomplete => ("Incomplete", [])
  | .Mismatch message position =>
      let r := message.force
      ("Mismatch at " ++ toString position ++ ": " ++ r.1, r.2)
  | .Conversion message position =>
      let r := message.force
      ("Conversion failed at " ++ toString position ++ ": " ++ r.1, r.2)
  | .Expect message position inner =>
      let rm := message.force
      let ri := inner.display
      (rm.1 ++ " at " ++ toString position ++ ": " ++ ri.1, rm.2 ++ ri.2)
  | .Custom message position (some inner) =>
      let rm := message.force
      let ri := inner.display
      (rm.1 ++ " at " ++ toString position ++ ", (inner: " ++ ri.1 ++ ")",
        rm.2 ++ ri.2)
  | .Custom message position none =>
      let rm := message.force
      (rm.1 ++ " at " ++ toString position, rm.2)

/-- Model of `impl error::Error for Error`: the impl block provides only
`description`, returning the constant `"Parse error"`. -/
def Error.description (_ : Error) : String := "Parse error"

/-- The impl block does not override `source`; the standard library default
body is `None`. -/
def Error.source (_ : Error) : Option Error := none

/-- The impl block does not override `cause`; the standard library default
body delegates to `source`. -/
def Error.cause (e : Error) : Option Error := e.source

/-- Model of `#[derive(Clone)]` on `Error`/`ErrorMessage`: each `ErrorMessage`
field clones its `Arc` handle, so the clone holds the very same producers
(same identities), and no field has interior mutability, so the clone is the
same value. -/
def Error.clone (e : Error) : Error := e

/-- Structural shape of an error tree: variant tag and position at every
node, and presence/absence of the inner child, with message payloads
erased. -/
inductive Shape where
  | Incomplete
  | Mismatch (position : Nat)
  | Conversion (position : Nat)
  | Expect (position : Nat) (inner : Shape)
  | Custom (position : Nat) (inner : Option Shape)

/-- The shape of an error tree. -/
def Error.shape : Error → Shape
  | .Incomplete => .Incomplete
  | .Mismatch _ position => .Mismatch position
  | .Conversion _ position => .Conversion position
  | .Expect _ position inner => .Expect position inner.shape
  | .Custom _ position none => .Custom position none
  | .Custom _ position (some inner) => .Custom position (some inner.shape)

/-- Variant tags of the five `Error` variants. -/
inductive Tag where
  | incomplete
  | mismatch
  | conversion
  | expect
  | custom
deriving DecidableEq, Repr

/-- The variant tag of an error. -/
def Error.tag : Error → Tag
  | .Incomplete => .incomplete
  | .Mismatch _ _ => .mismatch
  | .Conversion _ _ => .conversion
  | .Expect _ _ _ => .expect
  | .Custom _ _ _ => .custom

/-- Identities of the user producers stored in a tree, in pre-order. -/
def Error.messageIds : Error → List Nat
  | .Incomplete => []
  | .Mismatch message _ => message.ids
  | .Conversion message _ => message.ids
  | .Expect message _ inner => message.ids ++ inner.messageIds
  | .Custom message _ none => message.ids
  | .Custom message _ (some inner) => message.ids ++ inner.messageIds

/-- Nesting depth of `Expect`/`Custom` wrappers: 0 at a leaf, one more per
wrapper level. -/
def Error.nesting : Error → Nat
  | .Expect _ _ inner => inner.nesting + 1
  | .Custom _ _ (some inner) => inner.nesting + 1
  | _ => 0

/-- Fuel-indexed rendition of `Error::evaluate`, consuming one unit of fuel
per recursive call; used to bound the recursion depth of the tree walk. -/
def Error.evaluateFuel : Nat → Error → Option (Error × List Nat)
  | 0, _ => none
  | _ + 1, .Incomplete => some (.Incomplete, [])
  | _ + 1, .Mismatch message position =>
      let r := message.evaluate
      some (.Mismatch r.1 position, r.2)
  | _ + 1, .Conversion message position =>
      let r := message.evaluate
      some (.Conversion r.1 position, r.2)
  | fuel + 1, .Expect message position inner =>
      match Error.evaluateFuel fuel inner with
      | none => none
      | some ri =>
          let rm := message.evaluate
          some (.Expect rm.1 position ri.1, rm.2 ++ ri.2)
  | _ + 1, .Custom message position none =>
      let rm := message.evaluate
      some (.Custom rm.1 position none, rm.2)
  | fuel + 1, .Custom message position (some inner) =>
      match Error.evaluateFuel fuel inner with
      | none => none
      | some ri =>
          let rm := message.evaluate
          some (.Custom rm.1 position (some ri.1), rm.2 ++ ri.2)

/-- A chain of nested `Expect` wrappers around `Incomplete`, one wrapper per
listed producer identity. -/
def expectChain : List Nat → Error
  | [] => .Incomplete
  | n :: rest => .Expect (.thunk n (toString n)) 0 (expectChain rest)

/-- Formatting the same `ErrorMessage` wrapper `k` times in a row: each
`Display`/`Debug` call invokes `(self.0)()` on the unchanged wrapper (the
formatter takes `&self` and the wrapper has no interior mutability). -/
def ErrorMessage.displayTimes : ErrorMessage → Nat → List (String × List Nat)
  | _, 0 => []
  | m, k + 1 => m.force :: m.displayTimes k

/-- One `Display` call on a message wrapper, keeping the wrapper: the
formatter receives `&self`, so the stored representation after the call is
the value it started with. -/
def ErrorMessage.displayStep (m : ErrorMessage) :
    (String × List Nat) × ErrorMessage :=
  (m.force, m)

/-! ### Helper lemmas -/

/-- Resolving rebuilds the tree with the same shape at every node. -/
theorem shape_eval (e : Error) : ((Error.evaluate e).1).shape = e.shape := by
  match e with
  | .Incomplete => rfl
  | .Mismatch m p => rfl
  | .Conversion m p => rfl
  | .Expect m p i => simp [Error.evaluate, Error.shape, shape_eval i]
  | .Custom m p none => rfl
  | .Custom m p (some i) => simp [Error.evaluate, Error.shape, shape_eval i]

/-- Tag-only equality: the comparison succeeds exactly when the tags agree. -/
theorem eq_iff_tag (a b : Error) : Error.eq a b = true ↔ a.tag = b.tag := by
  cases a <;> cases b <;> simp [Error.eq, Error.tag]

/-- The trace of a resolve pass is the pre-order list of the tree's user
producer identities: each message-carrying node is forced once, in a single
depth-first walk. -/
theorem evaluate_trace (e : Error) : (Error.evaluate e).2 = e.messageIds := by
  match e with
  | .Incomplete => rfl
  | .Mismatch m p => cases m <;> rfl
  | .Conversion m p => cases m <;> rfl
  | .Expect m p i =>
      cases m <;>
        simp [Error.evaluate, Error.messageIds, ErrorMessage.evaluate,
          ErrorMessage.ids, ErrorMessage.force, evaluate_trace i]
  | .Custom m p none => cases m <;> rfl
  | .Custom m p (some i) =>
      cases m <;>
        simp [Error.evaluate, Error.messageIds, ErrorMessage.evaluate,
          ErrorMessage.ids, ErrorMessage.force, evaluate_trace i]

/-- The producer identities of an `Expect` chain are exactly the listed ones. -/
theorem messageIds_expectChain (ids : List Nat) :
    (expectChain ids).messageIds = ids := by
  match ids with
  | [] => rfl
  | n :: rest =>
      simp [expectChain, Error.messageIds, ErrorMessage.ids,
        messageIds_expectChain rest]

/-- Forcing a message and then displaying the constant result yields the text
the producer yields. -/
theorem disp_eval (e : Error) :
    ((Error.evaluate e).1).display.1 = e.display.1 := by
  match e with
  | .Incomplete => rfl
  | .Mismatch m p => cases m <;> rfl
  | .Conversion m p => cases m <;> rfl
  | .Expect m p i =>
      cases m <;>
        simp [Error.evaluate, Error.display, ErrorMessage.evaluate,
          ErrorMessage.force, disp_eval i]
  | .Custom m p none => cases m <;> rfl
  | .Custom m p (some i) =>
      cases m <;>
        simp [Error.evaluate, Error.display, ErrorMessage.evaluate,
          ErrorMessage.force, disp_eval i]

/-- With fuel one more than the wrapper nesting depth, the fuel-indexed walk
completes and agrees with `Error.evaluate`. -/
theorem evalFuel_nesting (e : Error) :
    Error.evaluateFuel (e.nesting + 1) e = some (Error.evaluate e) := by
  match e with
  | .Incomplete => rfl
  | .Mismatch m p => rfl
  | .Conversion m p => rfl
  | .Expect m p i =>
      simp [Error.nesting, Error.evaluateFuel, evalFuel_nesting i,
        Error.evaluate]
  | .Custom m p none => rfl
  | .Custom m p (some i) =>
      simp [Error.nesting, Error.evaluateFuel, evalFuel_nesting i,
        Error.evaluate]

/-! ### Claim theorems -/

/-- C1: resolving a delayed error tree (of any depth, including nested
`Expect`/`Custom` chains) returns a tree with the same variant tag, the same
position and the same presence/absence of an inner child at every node —
only the message payload is converted — and in particular
`evaluate(Incomplete) = Incomplete`. -/
theorem evaluate_preserves_shape :
    (∀ e : Error, ((Error.evaluate e).1).shape = e.shape) ∧
    (Error.evaluate .Incomplete).1 = .Incomplete :=
  ⟨shape_eval, rfl⟩

/-- C2: equality of two error values (in either phase — a delayed `thunk`
message against a resolved `const` message) holds iff they are the same
variant, independent of message text, position and nested cause content:
`Mismatch{"a",1} == Mismatch{"b",99}` is true, `Mismatch == Conversion` is
false, and two `Expect` nodes with entirely different inner trees are
equal. -/
theorem eq_iff_tag_eq :
    (∀ a b : Error, Error.eq a b = true ↔ a.tag = b.tag) ∧
    Error.eq (.Mismatch (.thunk 0 "a") 1) (.Mismatch (.const "b") 99)
      = true ∧
    Error.eq (.Mismatch (.thunk 0 "a") 1) (.Conversion (.thunk 1 "a") 1)
      = false ∧
    Error.eq (.Expect (.thunk 0 "x") 0 .Incomplete)
      (.Expect (.thunk 1 "y") 5 (.Mismatch (.const "z") 2)) = true :=
  ⟨eq_iff_tag, rfl, rfl, rfl⟩

/-- C3: `Display` follows the per-variant templates — `Incomplete` prints
`Incomplete`; `Mismatch` prints `Mismatch at <position>: <message>`;
`Conversion` prints `Conversion failed at <position>: <message>`; `Expect`
prints `<message> at <position>: <inner>` recursively; `Custom` with inner
prints `<message> at <position>, (inner: <inner>)` and without inner prints
`<message> at <position>` — and the spec's two worked examples produce
exactly the quoted strings. -/
theorem display_templates :
    Error.Incomplete.display.1 = "Incomplete" ∧
    (∀ (m : ErrorMessage) (p : Nat),
      (Error.Mismatch m p).display.1
        = "Mismatch at " ++ toString p ++ ": " ++ m.force.1) ∧
    (∀ (m : ErrorMessage) (p : Nat),
      (Error.Conversion m p).display.1
        = "Conversion failed at " ++ toString p ++ ": " ++ m.force.1) ∧
    (∀ (m : ErrorMessage) (p : Nat) (i : Error),
      (Error.Expect m p i).display.1
        = m.force.1 ++ " at " ++ toString p ++ ": " ++ i.display.1) ∧
    (∀ (m : ErrorMessage) (p : Nat) (i : Error),
      (Error.Custom m p (some i)).display.1
        = m.force.1 ++ " at " ++ toString p ++ ", (inner: "
            ++ i.display.1 ++ ")") ∧
    (∀ (m : ErrorMessage) (p : Nat),
      (Error.Custom m p none).display.1
        = m.force.1 ++ " at " ++ toString p) ∧
    (Error.Expect (.thunk 0 "expected digit") 3
        (.Mismatch (.thunk 1 "\x27a\x27 is not a digit") 3)).display.1
      = "expected digit at 3: Mismatch at 3: \x27a\x27 is not a digit" ∧
    (Error.Custom (.thunk 0 "bad config") 0 none).display.1
      = "bad config at 0" ∧
    (Error.Custom (.thunk 0 "bad config") 0 (some .Incomplete)).display.1
      = "bad config at 0, (inner: Incomplete)" :=
  ⟨rfl, fun _ _ => rfl, fun _ _ => rfl, fun _ _ _ => rfl, fun _ _ _ => rfl,
    fun _ _ => rfl, rfl, rfl, rfl⟩

/-- C4: resolving is a single depth-first pass that invokes one producer per
message-carrying node (the trace equals the pre-order list of producer
identities), and resolving a tree of N nested `Expect` wrappers with
pairwise-distinct producers invokes exactly N producers, each exactly
once. -/
theorem expectChain_forces_each_once (ids : List Nat) (h : ids.Nodup) :
    (∀ e : Error, (Error.evaluate e).2 = e.messageIds) ∧
    ((expectChain ids).evaluate).2 = ids ∧
    ((expectChain ids).evaluate).2.length = ids.length ∧
    ∀ n ∈ ids, ((expectChain ids).evaluate).2.count n = 1 := by
  have htr : ((expectChain ids).evaluate).2 = ids := by
    rw [evaluate_trace, messageIds_expectChain]
  exact ⟨evaluate_trace, htr, by rw [htr], fun n hn => by
    rw [htr]; exact List.count_eq_one_of_mem h hn⟩

/-- Witness for C4 at the concrete chain of three `Expect` wrappers with
producers 0, 1, 2. -/
theorem expectChain_forces_each_once_witness :
    ((expectChain [0, 1, 2]).evaluate).2 = [0, 1, 2] ∧
    ((expectChain [0, 1, 2]).evaluate).2.count 1 = 1 :=
  ⟨(expectChain_forces_each_once [0, 1, 2] (by decide)).2.1,
    (expectChain_forces_each_once [0, 1, 2] (by decide)).2.2.2 1 (by decide)⟩

/-- C5: for every error value (producers in the model are pure by
construction), the text obtained by displaying the delayed error equals the
text obtained by displaying its resolved counterpart. -/
theorem display_evaluate_eq_display (e : Error) :
    ((Error.evaluate e).1).display.1 = e.display.1 :=
  disp_eval e

/-- C6 (amended): the resolved form implements the standard error trait with
`description` provided (the constant `"Parse error"`), but `cause`/`source`
are not overridden and return `None` even for `Expect`/`Custom` nodes, so
the wrapped inner error is not exposed through cause chaining. -/
theorem error_trait_minimal (e : Error) :
    Error.description e = "Parse error" ∧ Error.cause e = none ∧
    Error.source e = none :=
  ⟨rfl, rfl, rfl⟩

/-- C6 counterexample: for the concrete `Expect` node wrapping `Incomplete`,
`cause` does not return the wrapped inner error (it returns `None`). -/
theorem cause_not_inner_cex :
    Error.cause (.Expect (.thunk 0 "ctx") 3 .Incomplete)
      ≠ some .Incomplete := by
  simp [Error.cause, Error.source]

/-- C7: forcing is not memoized — formatting the same message wrapper `k`
times produces `k` identical results, each one invoking the stored producer
exactly once (so `k` invocations in total), and a formatting call leaves the
wrapper's stored representation unchanged. -/
theorem force_not_memoized (n : Nat) (s : String) (k : Nat) :
    ErrorMessage.displayTimes (.thunk n s) k = List.replicate k (s, [n]) ∧
    (ErrorMessage.displayStep (.thunk n s)).2 = .thunk n s := by
  refine ⟨?_, rfl⟩
  induction k with
  | zero => rfl
  | succ k ih =>
      simp [ErrorMessage.displayTimes, ErrorMessage.force, ih,
        List.replicate]

/-- C8: a clone of a delayed error holds the very same producers (cloning
copies reference-counted handles, no deep copy), resolving one clone forces
exactly that clone's producers and leaves the other clone's stored value
unchanged, and the other clone, resolved later, still forces every one of
its producers (no shared forced-state between clones). -/
theorem clone_shares_and_independent (e : Error) :
    (Error.clone e).messageIds = e.messageIds ∧
    ((Error.clone e).evaluate).2 = e.messageIds ∧
    (Error.evaluate e).2 = e.messageIds ∧
    Error.clone e = e :=
  ⟨rfl, evaluate_trace e, evaluate_trace e, rfl⟩

/-- C9: `Error::evaluate` terminates on every finite tree: the fuel-indexed
rendition of the walk, given fuel one more than the `Expect`/`Custom`
nesting depth, completes and returns exactly `Error.evaluate`. -/
theorem evaluate_terminates_fuel (e : Error) :
    Error.evaluateFuel (e.nesting + 1) e = some (Error.evaluate e) :=
  evalFuel_nesting e

/-- C10: in both phases and for every variant, the standard error-trait
`description` returns the constant `"Parse error"`, and `cause`/`source`
return `None` even for `Expect`/`Custom` nodes that carry an inner error. -/
theorem description_and_cause_constant (e : Error) :
    Error.description e = "Parse error" ∧ Error.cause e = none ∧
    Error.source e = none ∧
    Error.description (Error.evaluate e).1 = "Parse error" ∧
    Error.cause (Error.evaluate e).1 = none :=
  ⟨rfl, rfl, rfl, rfl, rfl⟩

end Pom
